import Mathlib

/-!
Shallow embedding of `src/execution.js` (gooddata-js): the metadata-to-execution
compiler.  Measures, categories and filters are embedded as Lean structures;
JavaScript strings are Lean `String`s (one `Char` per UTF-16 code unit of the
source program's data); possibly-`undefined` values are `Option`s; code paths
that throw (`invariant`, destructuring of `undefined`) return `none`.
-/

namespace GoodData

/-! ## JavaScript primitives used by the source -/

/-- Rendering of a possibly-undefined value inside a template literal:
`${undefined}` prints as the string "undefined". -/
def jsStr (o : Option String) : String := o.getD "undefined"

/-- JavaScript `String.prototype.toUpperCase` (ASCII part, which is all the
source feeds it: aggregation tokens). -/
def jsToUpper (s : String) : String := ⟨s.data.map Char.toUpper⟩

/-- JavaScript `String.prototype.toLowerCase` (ASCII part). -/
def jsToLower (s : String) : String := ⟨s.data.map Char.toLower⟩

def jsSplitAux (sep : Char) : List Char → List Char → List (List Char)
  | [], acc => [acc.reverse]
  | c :: rest, acc =>
    if c = sep then acc.reverse :: jsSplitAux sep rest []
    else jsSplitAux sep rest (c :: acc)

/-- JavaScript `String.prototype.split` with a one-character separator (the
source only splits on `'/'` and `'='`). -/
def jsSplit (s : String) (sep : Char) : List String :=
  (jsSplitAux sep s.data []).map (fun l => ⟨l⟩)

/-- JavaScript `string.substring(0, n)`: negative `n` is clamped to `0`,
`n` past the end is clamped to the length. -/
def jsSubstring0 (s : String) (n : Int) : String := ⟨s.data.take n.toNat⟩

/-- JavaScript `||` on possibly-undefined strings: the empty string is falsy. -/
def jsOrS (a b : Option String) : Option String :=
  match a with
  | some s => if s = "" then b else some s
  | none => b

/-- JavaScript `Object.assign`-style key update on an object represented as an
ordered key/value list: an existing key keeps its position and gets the new
value, a new key is appended. -/
def jsSetKey {V : Type} (obj : List (String × V)) (k : String) (v : V) : List (String × V) :=
  match obj with
  | [] => [(k, v)]
  | (k0, v0) :: rest =>
    if k0 = k then (k0, v) :: rest else (k0, v0) :: jsSetKey rest k v

/-- JavaScript object spread/`assign` of a second object over a first. -/
def jsAssign {V : Type} (obj updates : List (String × V)) : List (String × V) :=
  updates.foldl (fun acc kv => jsSetKey acc kv.1 kv.2) obj

/-! ## Data model (§3 of the source's shape) -/

structure ListAttributeFilterDefault where
  attributeElements : List String
  negativeSelection : Bool
deriving DecidableEq, Repr

structure ListAttributeFilter where
  attribute' : String
  displayForm : String
  default : ListAttributeFilterDefault
deriving DecidableEq, Repr

/-- One entry of a measure's `measureFilters` array. -/
structure MeasureFilter where
  listAttributeFilter : ListAttributeFilter
deriving DecidableEq, Repr

/-- A measure's `sort` field: either the deprecated plain string
`"asc" | "desc"` or the object form `{sortByPoP, direction}`. -/
inductive MeasureSort where
  | str (s : String)
  | obj (sortByPoP : Bool) (direction : Option String)
deriving DecidableEq, Repr

structure Measure where
  objectUri : String
  type : String
  aggregation : Option String := none
  title : String
  format : String
  sort : Option MeasureSort := none
  showPoP : Bool := false
  showInPercent : Bool := false
  measureFilters : List MeasureFilter := []
deriving DecidableEq, Repr

structure CategoryContent where
  type : String
  displayForm : String
  attribute' : Option String := none
  sort : Option String := none
deriving DecidableEq, Repr

structure CategoryWrapper where
  category : CategoryContent
deriving DecidableEq, Repr

/-- A bucket-level date filter; `from`/`to` are Lean keywords, embedded as
`from'`/`to'`. -/
structure DateFilter where
  dimension : Option String := none
  dataSet : Option String := none
  dataset : Option String := none
  granularity : Option String := none
  from' : Option String := none
  to' : Option String := none
  attribute' : Option String := none
deriving DecidableEq, Repr

/-- One entry of a bucket's `filters` array: an attribute filter wrapper or a
date filter wrapper (fields absent on the other kind). -/
structure BucketFilter where
  listAttributeFilter : Option ListAttributeFilter := none
  dateFilter : Option DateFilter := none
deriving DecidableEq, Repr

structure MeasureWrapper where
  measure : Measure
deriving DecidableEq, Repr

structure Buckets where
  measures : List MeasureWrapper
  categories : List CategoryWrapper
  filters : List BucketFilter
deriving DecidableEq, Repr

/-- The whole metadata object: `buckets` plus the visualization `type`. -/
structure MdObj where
  buckets : Buckets
  type : Option String := none
deriving DecidableEq, Repr

structure MetricDefinitionInner where
  identifier : String
  expression : String
  title : String
  format : String
deriving DecidableEq, Repr

structure MetricDefinition where
  metricDefinition : MetricDefinitionInner
deriving DecidableEq, Repr

structure MetricMeta where
  measureIndex : Nat
  isPoP : Option Bool := none
deriving DecidableEq, Repr

structure GeneratedMetricDescriptor where
  element : String
  definition : Option MetricDefinition := none
  sort : Option String := none
  meta : MetricMeta
deriving DecidableEq, Repr

/-! ## Content hash -/

def hexDigits (n : Nat) : List Char := Nat.toDigits 16 n

/-- Modelled from the spec: the `md5` content hash imported from the external
`md5` package is not part of this repository's sources; §4.3 specifies only
"an opaque fixed-width digest".  Embedded as a deterministic 32-hex-digit
digest of the input string. -/
def md5 (s : String) : String :=
  let n := s.data.foldl (fun h c => (h * 131 + c.toNat) % (2 ^ 128)) 7
  let ds := hexDigits n
  ⟨List.replicate (32 - ds.length) '0' ++ ds⟩

/-! ## Title truncation -/

def MAX_TITLE_LENGTH : Nat := 255

def getMetricTitle (suffix title : String) : String :=
  let maxLength : Int := (MAX_TITLE_LENGTH : Int) - (suffix.length : Int)
  if title ≠ "" ∧ (title.length : Int) > maxLength then
    if title.data.getLast? = some ')' then
      jsSubstring0 title (maxLength - 2) ++ "…)" ++ suffix
    else
      jsSubstring0 title (maxLength - 1) ++ "…" ++ suffix
  else
    title ++ suffix

def getBaseMetricTitle (title : String) : String := getMetricTitle "" title

def POP_SUFFIX : String := " - previous year"

def getPoPMetricTitle (title : String) : String := getMetricTitle POP_SUFFIX title

def CONTRIBUTION_METRIC_FORMAT : String := "#,##0.00%"

/-! ## Predicates -/

/-- Source `allFiltersEmpty`: every measure filter's selected element list is
empty (vacuously true when there are no filters). -/
def allFiltersEmpty (item : Measure) : Bool :=
  item.measureFilters.all
    (fun f => f.listAttributeFilter.default.attributeElements.isEmpty)

def isDerived (measure : Measure) : Bool :=
  measure.type == "fact" || measure.type == "attribute" || !(allFiltersEmpty measure)

def isPoP (measure : Measure) : Bool := measure.showPoP

def isContribution (measure : Measure) : Bool := measure.showInPercent

def isCalculatedMeasure (measure : Measure) : Bool := measure.type == "metric"

/-! ## Expression compiler -/

/-- Source `getFilterExpression`: `null` (here `none`) when the filter has no
selected elements, otherwise the `[attr] [NOT ]IN ([e1],[e2],...)` clause. -/
def getFilterExpression (f : MeasureFilter) : Option String :=
  let attributeUri := f.listAttributeFilter.attribute'
  let elements := f.listAttributeFilter.default.attributeElements
  if elements.isEmpty then none
  else
    let elementsForQuery := elements.map (fun e => "[" ++ e ++ "]")
    let negative := if f.listAttributeFilter.default.negativeSelection then "NOT " else ""
    some ("[" ++ attributeUri ++ "] " ++ negative ++ "IN (" ++
      String.intercalate "," elementsForQuery ++ ")")

/-- Source `getGeneratedMetricExpression`.  The JS filters the mapped clause
list by truthiness (`e => !!e`), which drops the `null`s; `getFilterExpression`
never returns an empty string, so `reduceOption` is exact. -/
def getGeneratedMetricExpression (item : Measure) : String :=
  let aggregation := jsToUpper (item.aggregation.getD "")
  let objectUri := item.objectUri
  let whereClauses := (item.measureFilters.map getFilterExpression).reduceOption
  "SELECT " ++
    (if aggregation ≠ "" then aggregation ++ "([" ++ objectUri ++ "])"
     else "[" ++ objectUri ++ "]") ++
    (if whereClauses ≠ [] then " WHERE " ++ String.intercalate " AND " whereClauses
     else "")

/-- Source `omit(measure, 'measureFilters')` as fed to
`getGeneratedMetricExpression`. -/
def omitMeasureFilters (measure : Measure) : Measure :=
  { measure with measureFilters := [] }

/-- Source `getPercentMetricExpression`, taking the already-destructured first
category of the buckets (destructuring `undefined` throws; the caller models
that with `Option`). -/
def getPercentMetricExpression (categoryWrapper : CategoryWrapper) (measure : Measure) : String :=
  let metricExpressionWithoutFilters :=
    if isDerived measure then getGeneratedMetricExpression (omitMeasureFilters measure)
    else "SELECT [" ++ measure.objectUri ++ "]"
  let attributeUri := categoryWrapper.category.attribute'
  let whereFilters := (measure.measureFilters.map getFilterExpression).reduceOption
  let whereExpression :=
    if whereFilters ≠ [] then " WHERE " ++ String.intercalate " AND " whereFilters else ""
  "SELECT (" ++ metricExpressionWithoutFilters ++ whereExpression ++ ") / (" ++
    metricExpressionWithoutFilters ++ " BY ALL [" ++ jsStr attributeUri ++ "]" ++
    whereExpression ++ ")"

/-- The `date` value resolved by `getDate`: either a date category's content or
a date filter (different shapes; `get(attribute, 'attribute')` is applied to
either). -/
inductive DateLike where
  | cat (c : CategoryContent)
  | flt (d : DateFilter)
deriving DecidableEq, Repr

/-- Lodash `get(attribute, 'attribute')` on a `DateLike` or `undefined`. -/
def dateAttribute : Option DateLike → Option String
  | some (.cat c) => c.attribute'
  | some (.flt d) => d.attribute'
  | none => none

/-- Source `getPoPExpression`. -/
def getPoPExpression (attribute' : Option DateLike) (metricExpression : String) : String :=
  "SELECT " ++ metricExpression ++ " FOR PREVIOUS ([" ++ jsStr (dateAttribute attribute') ++ "])"

/-! ## Identifier generation -/

def getGeneratedMetricHash (title format expression : String) : String :=
  md5 (expression ++ "#" ++ title ++ "#" ++ format)

/-- Source `getGeneratedMetricIdentifier`; `prjId` and `id` come from the
destructuring `[, , , prjId, , id] = objectUri.split('/')`, which yields
`undefined` for missing segments. -/
def getGeneratedMetricIdentifier (item : Measure) (aggregation : String)
    (expressionCreator : Measure → String) (hasher : String → String) : String :=
  let parts := jsSplit item.objectUri '/'
  let prjId := parts.getD 3 "undefined"
  let id := parts.getD 5 "undefined"
  let identifier := prjId ++ "_" ++ id
  let hash := hasher (expressionCreator item)
  let hasNoFilters := item.measureFilters.isEmpty
  let prefixStr := if hasNoFilters || allFiltersEmpty item then "" else "_filtered"
  item.type ++ "_" ++ identifier ++ ".generated." ++ hash ++ prefixStr ++ "_" ++ aggregation

/-! ## Date resolution and sorts -/

def getCategories (mdObj : Buckets) : List CategoryWrapper := mdObj.categories

def getFilters (mdObj : Buckets) : List BucketFilter := mdObj.filters

def getDateCategory (mdObj : Buckets) : Option CategoryContent :=
  ((getCategories mdObj).find? (fun cw => cw.category.type == "date")).map (·.category)

def getDateFilter (mdObj : Buckets) : Option DateFilter :=
  ((getFilters mdObj).find? (fun f => f.dateFilter.isSome)).bind (·.dateFilter)

def getDate (mdObj : Buckets) : Option DateLike :=
  match getDateCategory mdObj with
  | some c => some (.cat c)
  | none => (getDateFilter mdObj).map .flt

/-- Source `getMetricSort`; the second argument is `undefined` (i.e. `false`)
at the pure/derived/contribution call sites. -/
def getMetricSort (sort : Option MeasureSort) (isPoPMetric : Bool := false) : Option String :=
  match sort with
  | some (.str s) => some s
  | some (.obj sortByPoP direction) =>
    if (isPoPMetric && sortByPoP) || (!isPoPMetric && !sortByPoP) then direction
    else none
  | none => none

/-! ## Metric descriptor factories -/

def createPureMetric (measure : Measure) (_mdObj : Buckets) (measureIndex : Nat) :
    GeneratedMetricDescriptor :=
  { element := measure.objectUri
    sort := getMetricSort measure.sort
    meta := { measureIndex } }

def createDerivedMetric (measure : Measure) (_mdObj : Buckets) (measureIndex : Nat) :
    GeneratedMetricDescriptor :=
  let format := measure.format
  let title := getBaseMetricTitle measure.title
  let hasher := getGeneratedMetricHash title format
  let aggregation := jsToLower (measure.aggregation.getD "base")
  let element := getGeneratedMetricIdentifier measure aggregation getGeneratedMetricExpression hasher
  { element
    definition := some
      { metricDefinition :=
        { identifier := element
          expression := getGeneratedMetricExpression measure
          title
          format } }
    sort := getMetricSort measure.sort
    meta := { measureIndex } }

/-- Source `createContributionMetric`; `none` models the TypeError thrown when
the buckets hold no category (`first` yields `undefined`, which the parameter
destructuring of `getPercentMetricExpression` rejects). -/
def createContributionMetric (measure : Measure) (mdObj : Buckets) (measureIndex : Nat) :
    Option GeneratedMetricDescriptor :=
  ((getCategories mdObj).head?).map (fun category =>
    let getMetricExpression := getPercentMetricExpression category
    let title := getBaseMetricTitle measure.title
    let hasher := getGeneratedMetricHash title CONTRIBUTION_METRIC_FORMAT
    { element := getGeneratedMetricIdentifier measure "percent" getMetricExpression hasher
      definition := some
        { metricDefinition :=
          { identifier := getGeneratedMetricIdentifier measure "percent" getMetricExpression hasher
            expression := getMetricExpression measure
            title
            format := CONTRIBUTION_METRIC_FORMAT } }
      sort := getMetricSort measure.sort
      meta := { measureIndex } })

def createPoPMetric (measure : Measure) (mdObj : Buckets) (measureIndex : Nat) :
    List GeneratedMetricDescriptor :=
  let title := getPoPMetricTitle measure.title
  let format := measure.format
  let hasher := getGeneratedMetricHash title format
  let date := getDate mdObj
  let generated : Option GeneratedMetricDescriptor :=
    if isDerived measure then some (createDerivedMetric measure mdObj measureIndex) else none
  let getMetricExpression : Measure → String :=
    match generated with
    | some g => fun _ =>
      getPoPExpression date
        ("(" ++ jsStr (g.definition.map (·.metricDefinition.expression)) ++ ")")
    | none => fun _ => getPoPExpression date ("[" ++ measure.objectUri ++ "]")
  let identifier := getGeneratedMetricIdentifier measure "pop" getMetricExpression hasher
  let popDescriptor : GeneratedMetricDescriptor :=
    { element := identifier
      definition := some
        { metricDefinition :=
          { identifier
            expression := getMetricExpression measure
            title
            format } }
      sort := getMetricSort measure.sort true
      meta := { measureIndex, isPoP := some true } }
  match generated with
  | some g => [popDescriptor, g]
  | none => [popDescriptor, createPureMetric measure mdObj measureIndex]

/-- Source `createContributionPoPMetric`; `none` propagates the contribution
factory's crash on category-less buckets. -/
def createContributionPoPMetric (measure : Measure) (mdObj : Buckets) (measureIndex : Nat) :
    Option (List GeneratedMetricDescriptor) :=
  (createContributionMetric measure mdObj measureIndex).map (fun generated =>
    let date := getDate mdObj
    let title := getPoPMetricTitle measure.title
    let format := CONTRIBUTION_METRIC_FORMAT
    let hasher := getGeneratedMetricHash title format
    let getMetricExpression : Measure → String := fun _ =>
      getPoPExpression date
        ("(" ++ jsStr (generated.definition.map (·.metricDefinition.expression)) ++ ")")
    let identifier := getGeneratedMetricIdentifier measure "pop" getMetricExpression hasher
    [{ element := identifier
       definition := some
         { metricDefinition :=
           { identifier
             expression := getMetricExpression measure
             title
             format } }
       sort := getMetricSort measure.sort true
       meta := { measureIndex, isPoP := some true } },
     generated])

/-! ## Rule dispatch -/

/-- The five construction strategies of the source, named for their factory
functions. -/
inductive MetricStrategy where
  | contributionPoP
  | pop
  | contribution
  | derived
  | pure
deriving DecidableEq, Repr

/-- Modelled from the spec: the `Rules` matcher lives in `utils/rules`, which
is not part of this repository's sources; §4.1 specifies that dispatch
evaluates registered (predicate-set, strategy) pairs in registration order and
returns the first pair whose every predicate holds on the measure. -/
def rulesMatch (ruleList : List (List (Measure → Bool) × MetricStrategy)) (measure : Measure) :
    Option MetricStrategy :=
  match ruleList with
  | [] => none
  | (preds, s) :: rest =>
    if preds.all (fun p => p measure) then some s else rulesMatch rest measure

/-- The rule registrations of the source, in `addRule` order. -/
def registeredRules : List (List (Measure → Bool) × MetricStrategy) :=
  [([isPoP, isContribution], .contributionPoP),
   ([isPoP], .pop),
   ([isContribution], .contribution),
   ([isDerived], .derived),
   ([isCalculatedMeasure], .pure)]

/-- Source `getMetricFactory`; `none` models the fatal `invariant` failure on
an unmatched measure. -/
def getMetricFactory (measure : Measure) : Option MetricStrategy :=
  rulesMatch registeredRules measure

/-- Running the factory a strategy names; `none` models a thrown exception. -/
def runStrategy (s : MetricStrategy) (measure : Measure) (mdObj : Buckets)
    (measureIndex : Nat) : Option (List GeneratedMetricDescriptor) :=
  match s with
  | .contributionPoP => createContributionPoPMetric measure mdObj measureIndex
  | .pop => some (createPoPMetric measure mdObj measureIndex)
  | .contribution => (createContributionMetric measure mdObj measureIndex).map ([·])
  | .derived => some [createDerivedMetric measure mdObj measureIndex]
  | .pure => some [createPureMetric measure mdObj measureIndex]

/-! ## Filter translation (`where` clause) -/

/-- A value in the structured `where` object. -/
inductive WhereVal where
  /-- `{$in: [{id: ...}, ...]}` -/
  | inSelection (ids : List String)
  /-- `{$not: {$in: [{id: ...}, ...]}}` -/
  | notInSelection (ids : List String)
  /-- `{$between: [from, to], $granularity: g}` -/
  | between (fromVal toVal : Option String) (granularity : Option String)
  /-- The `$and` array of single-key attribute clauses. -/
  | andClauses (clauses : List (String × WhereVal))
deriving Repr

/-- Common projection of categories-as-elements and metric descriptors: the two
fields the assembler reads from either. -/
structure ColumnItem where
  element : String
  sort : Option String
deriving DecidableEq, Repr

def categoryToElement (cw : CategoryWrapper) : ColumnItem :=
  { element := cw.category.displayForm, sort := cw.category.sort }

def toColumnItem (d : GeneratedMetricDescriptor) : ColumnItem :=
  { element := d.element, sort := d.sort }

def attributeFilterToWhere (f : BucketFilter) : String × WhereVal :=
  let elements := (f.listAttributeFilter.map (·.default.attributeElements)).getD []
  let elementsForQuery := elements.map (fun e => (jsSplit e '=').getLastD "")
  let dfUri := jsStr (f.listAttributeFilter.map (·.displayForm))
  let negative := (f.listAttributeFilter.map (·.default.negativeSelection)).getD false
  if negative then (dfUri, .notInSelection elementsForQuery)
  else (dfUri, .inSelection elementsForQuery)

def dateFilterToWhere (f : BucketFilter) : String × WhereVal :=
  let dateUri := jsOrS (jsOrS (f.dateFilter.bind (·.dimension)) (f.dateFilter.bind (·.dataSet)))
    (f.dateFilter.bind (·.dataset))
  let granularity := f.dateFilter.bind (·.granularity)
  (jsStr dateUri, .between (f.dateFilter.bind (·.from')) (f.dateFilter.bind (·.to')) granularity)

def isDateFilterExecutable (dateFilter : Option DateFilter) : Bool :=
  ((dateFilter.bind (·.from')).isSome && (dateFilter.bind (·.to')).isSome)

def isAttributeFilterExecutable (listAttributeFilter : Option ListAttributeFilter) : Bool :=
  !((listAttributeFilter.map (·.default.attributeElements)).getD []).isEmpty

/-- Source `getWhere`: the merged date clauses spread first, then the
`$and` attribute clause array. -/
def getWhere (filters : List BucketFilter) : List (String × WhereVal) :=
  let executableFilters := filters.filter (fun f => isAttributeFilterExecutable f.listAttributeFilter)
  let attributeFilters := executableFilters.map attributeFilterToWhere
  let dateFilters := (filters.filter (fun f => isDateFilterExecutable f.dateFilter)).map dateFilterToWhere
  let resultDate := dateFilters.foldl (fun acc kv => jsSetKey acc kv.1 kv.2) []
  jsAssign resultDate [("$and", .andClauses attributeFilters)]

/-! ## Ordering -/

structure OrderByItem where
  column : Option String
  direction : Option String
deriving DecidableEq, Repr

def sortToOrderBy (item : ColumnItem) : OrderByItem :=
  { column := some item.element, direction := item.sort }

/-- JavaScript truthiness of an item's `sort` field (absent and empty-string
sorts are falsy). -/
def hasTruthySort (item : ColumnItem) : Bool :=
  match item.sort with
  | some s => s ≠ ""
  | none => false

def getOrderBy (metrics categories : List ColumnItem) (type : Option String) :
    List OrderByItem :=
  if type == some "bar" && !metrics.isEmpty then
    [{ column := ((metrics.map (·.element)).filter (· ≠ "")).head?
       direction := some "desc" }]
  else
    ((categories ++ metrics).filter hasTruthySort).map sortToOrderBy

/-! ## Assembly -/

structure MetricMapping where
  element : String
  measureIndex : Nat
  isPoP : Option Bool := none
deriving DecidableEq, Repr

structure ExecutionConfiguration where
  columns : List String
  orderBy : List OrderByItem
  definitions : List MetricDefinition
  whereObj : List (String × WhereVal)
  metricMappings : List MetricMapping
deriving Repr

structure Options where
  removeDateItems : Bool := false
deriving DecidableEq, Repr

/-- Modelled from the spec: `sortDefinitions` lives in `utils/definitions`,
which is not part of this repository's sources; §6 gives its contract as a
stable ordering/dedup of generated definitions.  Embedded as stable
deduplication (first occurrence kept). -/
def sortDefinitions (definitions : List MetricDefinition) : List MetricDefinition :=
  definitions.eraseDups

/-- Source `mdToExecutionConfiguration`; `none` models a thrown exception
(unmatched measure in dispatch, or a contribution strategy on category-less
buckets). -/
def mdToExecutionConfiguration (mdObj : MdObj) (options : Options := {}) :
    Option ExecutionConfiguration :=
  let buckets := mdObj.buckets
  let measures := buckets.measures.map (·.measure)
  (measures.enum.mapM (fun p =>
      (getMetricFactory p.2).bind (fun s => runStrategy s p.2 buckets p.1))).map
    (fun metricLists =>
      let metrics := metricLists.flatten
      let categories0 :=
        if options.removeDateItems then
          (getCategories buckets).filter (fun cw => cw.category.type ≠ "date")
        else getCategories buckets
      let filters :=
        if options.removeDateItems then
          (getFilters buckets).filter (fun item => item.dateFilter.isNone)
        else getFilters buckets
      let categories := categories0.map categoryToElement
      let metricItems := metrics.map toColumnItem
      let columns := ((categories ++ metricItems).map (·.element)).filter (· ≠ "")
      { columns
        orderBy := getOrderBy metricItems categories mdObj.type
        definitions := sortDefinitions (metrics.map (·.definition)).reduceOption
        whereObj := if columns.length ≠ 0 then getWhere filters else []
        metricMappings := metrics.map (fun m =>
          { element := m.element
            measureIndex := m.meta.measureIndex
            isPoP := m.meta.isPoP }) })

/-! ## Original-format resolution (`getDataForVis`) -/

/-- Source per-measure body of `getOriginalMetricFormats`: the server
round-trip `xhrGet(measure.objectUri)` is embedded as an oracle `server`
giving the `metric.content.format` stored at a URI (`none` when absent, in
which case the measure's own format is the lodash-`get` fallback). -/
def originalFormatMeasure (server : String → Option String) (measure : Measure) : Measure :=
  if measure.showPoP = true ∨ measure.measureFilters.length > 0 then
    { measure with format := (server measure.objectUri).getD measure.format }
  else measure

def getOriginalMetricFormats (server : String → Option String) (mdObj : MdObj) : List Measure :=
  (mdObj.buckets.measures.map (·.measure)).map (originalFormatMeasure server)

/-- Source `getDataForVis` up to the transport call, as a state transformer:
the value of the caller's `mdObj` after the statement
`metadata.buckets.measures = map(measures, measure => ({ measure }))`
(where `metadata` aliases `mdObj`). -/
def getDataForVisMetadata (server : String → Option String) (mdObj : MdObj) : MdObj :=
  { mdObj with
    buckets :=
      { mdObj.buckets with
        measures := (getOriginalMetricFormats server mdObj).map (fun measure => { measure }) } }

/-- The execution configuration `getDataForVis` compiles, built from the
mutated metadata object. -/
def getDataForVisConfiguration (server : String → Option String) (mdObj : MdObj) :
    Option ExecutionConfiguration :=
  mdToExecutionConfiguration (getDataForVisMetadata server mdObj)

/-! ## Claim-side (spec-worded) definitions

These restate the spec's grammar in its own words, to be compared with the
source-derived definitions above. -/

/-- Written from C4's words: a filter clause is
`[<attributeUri>] IN (...)` or `[<attributeUri>] NOT IN (...)` with each
element individually bracketed and comma-joined. -/
def specFilterClause (f : MeasureFilter) : String :=
  "[" ++ f.listAttributeFilter.attribute' ++ "] " ++
    (if f.listAttributeFilter.default.negativeSelection then "NOT " else "") ++
    "IN (" ++
    String.intercalate ","
      (f.listAttributeFilter.default.attributeElements.map (fun e => "[" ++ e ++ "]")) ++
    ")"

/-- Written from C4's words: the string ` WHERE <f1> AND <f2> ...` appended
when the measure carries filters with selected elements, every filter whose
selected-element list is empty silently omitted. -/
def specWhereSuffix (m : Measure) : String :=
  let clauses := (m.measureFilters.filter
    (fun f => f.listAttributeFilter.default.attributeElements ≠ [])).map specFilterClause
  if clauses ≠ [] then " WHERE " ++ String.intercalate " AND " clauses else ""

/-- Written from C4's words: `SELECT <AGG>([<uri>])` when an aggregation is
given (uppercased) and `SELECT [<uri>]` otherwise. -/
def specDerivedSelect (m : Measure) : String :=
  if m.aggregation.getD "" ≠ "" then
    "SELECT " ++ jsToUpper (m.aggregation.getD "") ++ "([" ++ m.objectUri ++ "])"
  else
    "SELECT [" ++ m.objectUri ++ "]"

/-- Written from C4's words: the full derived generated-aggregate expression. -/
def specDerivedExpression (m : Measure) : String :=
  specDerivedSelect m ++ specWhereSuffix m

/-- Written from C3's words: `SELECT (<inner><where>) / (<inner> BY ALL
[<categoryAttributeUri>]<where>)` with `<inner>` the measure's derived-aggregate
expression built without its own WHERE clause. -/
def specContributionExpression (cw : CategoryWrapper) (m : Measure) : String :=
  "SELECT (" ++ specDerivedSelect m ++ specWhereSuffix m ++ ") / (" ++
    specDerivedSelect m ++ " BY ALL [" ++ jsStr cw.category.attribute' ++ "]" ++
    specWhereSuffix m ++ ")"

/-- The inner expression the code actually uses for contributions: the
no-WHERE derived-aggregate expression only for derived measures, the plain
reference (ignoring any aggregation) otherwise. -/
def amendedContributionInner (m : Measure) : String :=
  if isDerived m then specDerivedSelect m else "SELECT [" ++ m.objectUri ++ "]"

/-- C3 as amended: the contribution grammar with the corrected inner
expression. -/
def amendedContributionExpression (cw : CategoryWrapper) (m : Measure) : String :=
  "SELECT (" ++ amendedContributionInner m ++ specWhereSuffix m ++ ") / (" ++
    amendedContributionInner m ++ " BY ALL [" ++ jsStr cw.category.attribute' ++ "]" ++
    specWhereSuffix m ++ ")"

/-! ## Supporting lemmas -/

lemma strMk_eq_empty_iff (l : List Char) : (⟨l⟩ : String) = "" ↔ l = [] := by
  rw [show ("" : String) = ⟨[]⟩ from rfl]
  exact ⟨fun h => by injection h, fun h => by rw [h]⟩

lemma jsToUpper_eq_empty_iff (s : String) : jsToUpper s = "" ↔ s = "" := by
  cases s with
  | mk l =>
    rw [jsToUpper, strMk_eq_empty_iff, strMk_eq_empty_iff, List.map_eq_nil_iff]

lemma getFilterExpression_eq (f : MeasureFilter) :
    getFilterExpression f =
      if f.listAttributeFilter.default.attributeElements = [] then none
      else some (specFilterClause f) := by
  rw [getFilterExpression, specFilterClause]
  rcases f.listAttributeFilter.default.attributeElements with _ | ⟨e, es⟩ <;> simp

lemma filterClauses_eq (fs : List MeasureFilter) :
    (fs.map getFilterExpression).reduceOption =
      (fs.filter
        (fun f => f.listAttributeFilter.default.attributeElements ≠ [])).map specFilterClause := by
  rw [show (fs.map getFilterExpression).reduceOption = fs.filterMap getFilterExpression by
    rw [List.reduceOption, List.filterMap_map]; rfl]
  induction fs with
  | nil => rfl
  | cons f rest ih =>
    rw [List.filterMap_cons, List.filter_cons, getFilterExpression_eq]
    by_cases he : f.listAttributeFilter.default.attributeElements = [] <;>
      simp [he, ih]

/-- The source's select-part (a shared `"SELECT "` followed by an alternative)
equals the claim's per-alternative full strings. -/
lemma select_part_eq (m : Measure) (W : String) :
    "SELECT " ++
        (if jsToUpper (m.aggregation.getD "") ≠ "" then
          jsToUpper (m.aggregation.getD "") ++ "([" ++ m.objectUri ++ "])"
         else "[" ++ m.objectUri ++ "]") ++ W =
      specDerivedSelect m ++ W := by
  rw [specDerivedSelect]
  by_cases ha : m.aggregation.getD "" = ""
  · rw [if_neg (by simp [ha, jsToUpper_eq_empty_iff]), if_neg (by simp [ha])]
    simp only [← String.append_assoc]
    rfl
  · rw [if_pos (by simp [jsToUpper_eq_empty_iff, ha]), if_pos (by simp [ha])]
    simp only [← String.append_assoc]

lemma generated_expr_no_filters (m : Measure) (h : m.measureFilters = []) :
    getGeneratedMetricExpression m = specDerivedSelect m := by
  rw [getGeneratedMetricExpression, h]
  rw [show (([] : List MeasureFilter).map getFilterExpression).reduceOption = [] from rfl,
    show (if ([] : List String) ≠ [] then
        " WHERE " ++ String.intercalate " AND " ([] : List String)
      else "") = "" from by simp]
  exact (select_part_eq m "").trans (String.append_empty _)

lemma percent_expr_eq (cw : CategoryWrapper) (m : Measure) :
    getPercentMetricExpression cw m = amendedContributionExpression cw m := by
  rw [getPercentMetricExpression, amendedContributionExpression, amendedContributionInner,
    specWhereSuffix, filterClauses_eq]
  by_cases hd : isDerived m
  · rw [if_pos hd, if_pos hd, generated_expr_no_filters (omitMeasureFilters m) rfl,
      show specDerivedSelect (omitMeasureFilters m) = specDerivedSelect m from rfl]
  · rw [if_neg hd, if_neg hd]

/-- C4: for every measure, the derived generated-aggregate expression follows
the claimed grammar: `SELECT <AGG>([<uri>])` when an aggregation is given
(uppercased), `SELECT [<uri>]` otherwise, with ` WHERE <f1> AND <f2> ...`
appended when the measure carries filters with selected elements, each clause
`[<attributeUri>] [NOT ]IN (...)` with elements individually bracketed and
comma-joined, and empty-selection filters silently omitted. -/
theorem c4_derived_expression_grammar (m : Measure) :
    getGeneratedMetricExpression m = specDerivedExpression m := by
  rw [getGeneratedMetricExpression, specDerivedExpression, specWhereSuffix,
    filterClauses_eq]
  exact select_part_eq m _

/-! ## C3: contribution expression -/

def c3Category : CategoryWrapper :=
  { category := { type := "attribute", displayForm := "/df/1", attribute' := some "/catAttr" } }

def c3Measure : Measure :=
  { objectUri := "/gdc/md/p1/obj/10", type := "metric", aggregation := some "sum",
    title := "T", format := "F", showInPercent := true }

def c3Buckets : Buckets :=
  { measures := [], categories := [c3Category], filters := [] }

/-- C3 counterexample: a contribution-dispatched measure of type "metric"
carrying an aggregation (so not derived).  The claim predicts the inner
expression `SELECT SUM([uri])`; the code ignores the aggregation and emits
`SELECT [uri]`. -/
theorem c3_counterexample :
    isContribution c3Measure = true ∧
    getPercentMetricExpression c3Category c3Measure ≠
      specContributionExpression c3Category c3Measure := by
  exact ⟨rfl, by decide⟩

/-- C3 as amended: the contribution expression is
`SELECT (<inner><where>) / (<inner> BY ALL [<categoryAttributeUri>]<where>)`
where `<inner>` is the no-WHERE derived-aggregate expression for derived
measures but the plain `SELECT [<uri>]` reference (any aggregation ignored)
otherwise; the WHERE clause is appended once, identically, to numerator and
denominator; and the generated definition's format is the literal
`"#,##0.00%"` regardless of the source measure's format. -/
theorem c3_amended_contribution (cw : CategoryWrapper) (m : Measure) (b : Buckets) (i : Nat)
    (hcat : b.categories.head? = some cw) :
    getPercentMetricExpression cw m = amendedContributionExpression cw m ∧
    (createContributionMetric m b i).map (fun d => d.definition.map (·.metricDefinition.format)) =
      some (some CONTRIBUTION_METRIC_FORMAT) ∧
    (createContributionMetric m b i).map (fun d => d.definition.map (·.metricDefinition.expression)) =
      some (some (amendedContributionExpression cw m)) := by
  refine ⟨percent_expr_eq cw m, ?_, ?_⟩ <;>
    simp [createContributionMetric, getCategories, hcat, percent_expr_eq]

/-- C3 witness: the amended statement evaluated on a concrete contribution
measure in a single-category bucket. -/
theorem c3_amended_witness :
    getPercentMetricExpression c3Category c3Measure =
      amendedContributionExpression c3Category c3Measure ∧
    (createContributionMetric c3Measure c3Buckets 0).map
        (fun d => d.definition.map (·.metricDefinition.format)) =
      some (some CONTRIBUTION_METRIC_FORMAT) :=
  ⟨(c3_amended_contribution c3Category c3Measure c3Buckets 0 rfl).1,
   (c3_amended_contribution c3Category c3Measure c3Buckets 0 rfl).2.1⟩

/-! ## C1: dispatch -/

lemma rulesMatch_eq_find (rl : List (List (Measure → Bool) × MetricStrategy)) (m : Measure) :
    rulesMatch rl m = (rl.find? (fun r => r.1.all (fun p => p m))).map Prod.snd := by
  induction rl with
  | nil => rfl
  | cons r rest ih =>
    cases r with
    | mk preds s =>
      rw [rulesMatch]
      by_cases hp : preds.all (fun p => p m) = true
      · simp [List.find?, hp]
      · simp [List.find?, hp, ih]

def c1Measure : Measure :=
  { objectUri := "/gdc/md/p/obj/1", type := "metric", title := "M", format := "#" }

/-- C1: dispatch is the first-match evaluation of the five registered
(predicate-set, strategy) pairs in registration order
(isPoP ∧ isContribution), (isPoP), (isContribution), (isDerived),
(isCalculatedMeasure); it returns a strategy (exactly one, it being a
function) whenever the measure's type is one of the recognized values; and it
is deterministic in the dispatch-relevant flags. -/
theorem c1_dispatch_total_deterministic :
    (∀ m : Measure, getMetricFactory m =
      (registeredRules.find? (fun r => r.1.all (fun p => p m))).map Prod.snd) ∧
    (∀ m : Measure, (m.type = "fact" ∨ m.type = "attribute" ∨ m.type = "metric") →
      (getMetricFactory m).isSome = true) ∧
    (∀ m₁ m₂ : Measure, m₁.showPoP = m₂.showPoP → m₁.showInPercent = m₂.showInPercent →
      m₁.type = m₂.type → allFiltersEmpty m₁ = allFiltersEmpty m₂ →
      getMetricFactory m₁ = getMetricFactory m₂) := by
  refine ⟨fun m => rulesMatch_eq_find registeredRules m, ?_, ?_⟩
  · intro m h
    rw [getMetricFactory, registeredRules]
    simp only [rulesMatch, List.all_cons, List.all_nil]
    split_ifs with h1 h2 h3 h4 h5 <;> try rfl
    exfalso
    rcases h with ht | ht | ht <;>
      simp [isDerived, isCalculatedMeasure, ht] at h4 h5
  · intro m₁ m₂ h1 h2 h3 h4
    have e1 : isPoP m₁ = isPoP m₂ := h1
    have e2 : isContribution m₁ = isContribution m₂ := h2
    have e3 : isDerived m₁ = isDerived m₂ := by rw [isDerived, isDerived, h3, h4]
    have e4 : isCalculatedMeasure m₁ = isCalculatedMeasure m₂ := by
      rw [isCalculatedMeasure, isCalculatedMeasure, h3]
    rw [getMetricFactory, getMetricFactory, registeredRules]
    simp only [rulesMatch, List.all_cons, List.all_nil, e1, e2, e3, e4]

/-- C1 witness: a plain metric-typed measure is dispatched, and to the pure
strategy. -/
theorem c1_witness :
    c1Measure.type = "metric" ∧ (getMetricFactory c1Measure).isSome = true ∧
    getMetricFactory c1Measure = some MetricStrategy.pure :=
  ⟨rfl, c1_dispatch_total_deterministic.2.1 c1Measure (Or.inr (Or.inr rfl)), by decide⟩

/-! ## C2: descriptor emission per strategy -/

lemma getMetricTitle_short (suffix title : String)
    (h : title.length + suffix.length ≤ MAX_TITLE_LENGTH) :
    getMetricTitle suffix title = title ++ suffix := by
  rw [getMetricTitle, if_neg]
  rintro ⟨-, h2⟩
  rw [MAX_TITLE_LENGTH] at h h2
  omega

def c2Measure : Measure :=
  { objectUri := "/gdc/md/p1/obj/5", type := "metric", title := "Revenue",
    format := "#,##0", showPoP := true }

def c2Buckets : Buckets :=
  { measures := []
    categories := [{ category :=
      { type := "date", displayForm := "/df/date", attribute' := some "/attr/date" } }]
    filters := [] }

/-- C2: the PoP and contribution+PoP strategies emit exactly two descriptors —
the PoP wrapper first, its underlying base metric second — while the pure,
derived and contribution strategies emit exactly one; both descriptors carry
the measure's index, only the PoP wrapper is flagged `isPoP: true`, and the
PoP wrapper's title is the measure's title with the literal suffix
`" - previous year"` appended (verbatim whenever it fits the 255 budget). -/
theorem c2_strategy_emission (m : Measure) (b : Buckets) (i : Nat) (s : MetricStrategy)
    (l : List GeneratedMetricDescriptor) (h : runStrategy s m b i = some l) :
    ((s = .pop ∨ s = .contributionPoP) →
      l.length = 2 ∧
      l.map (fun d => d.meta.measureIndex) = [i, i] ∧
      l.map (fun d => d.meta.isPoP) = [some true, none] ∧
      l.head?.map (fun d => d.definition.map (·.metricDefinition.title)) =
        some (some (getPoPMetricTitle m.title)) ∧
      (m.title.length + POP_SUFFIX.length ≤ MAX_TITLE_LENGTH →
        l.head?.map (fun d => d.definition.map (·.metricDefinition.title)) =
          some (some (m.title ++ POP_SUFFIX)))) ∧
    ((s = .pure ∨ s = .derived ∨ s = .contribution) → l.length = 1) := by
  constructor
  · rintro (rfl | rfl)
    · rw [runStrategy] at h
      replace h := (Option.some.inj h).symm
      subst h
      by_cases hd : isDerived m <;>
        refine ⟨by simp [createPoPMetric, hd],
          by simp [createPoPMetric, hd, createDerivedMetric, createPureMetric],
          by simp [createPoPMetric, hd, createDerivedMetric, createPureMetric],
          by simp [createPoPMetric, hd], fun hlen => ?_⟩ <;>
      · simp only [createPoPMetric, hd, if_pos, if_neg, List.head?_cons, Option.map_some']
        simp [getPoPMetricTitle, getMetricTitle_short _ _ hlen]
    · rw [runStrategy, createContributionPoPMetric] at h
      cases hcat : (getCategories b).head? with
      | none =>
        rw [createContributionMetric, hcat] at h
        simp at h
      | some cw =>
        rw [createContributionMetric, hcat] at h
        simp only [Option.map_some'] at h
        replace h := (Option.some.inj h).symm
        subst h
        refine ⟨rfl, rfl, rfl, rfl, fun hlen => ?_⟩
        simp [getPoPMetricTitle, getMetricTitle_short _ _ hlen]
  · rintro (rfl | rfl | rfl) <;> rw [runStrategy] at h
    · exact (Option.some.inj h).symm ▸ rfl
    · exact (Option.some.inj h).symm ▸ rfl
    · cases hc : createContributionMetric m b i with
      | none => rw [hc] at h; simp at h
      | some d =>
        rw [hc] at h
        simp only [Option.map_some'] at h
        exact (Option.some.inj h).symm ▸ rfl

/-- C2 witness: the PoP strategy on a concrete short-titled measure yields the
two descriptors, flags and the expected title. -/
theorem c2_witness :
    runStrategy .pop c2Measure c2Buckets 1 = some (createPoPMetric c2Measure c2Buckets 1) ∧
    (createPoPMetric c2Measure c2Buckets 1).length = 2 ∧
    (createPoPMetric c2Measure c2Buckets 1).map (fun d => d.meta.isPoP) = [some true, none] ∧
    (createPoPMetric c2Measure c2Buckets 1).head?.map
        (fun d => d.definition.map (·.metricDefinition.title)) =
      some (some "Revenue - previous year") := by
  have hc := c2_strategy_emission c2Measure c2Buckets 1 .pop
    (createPoPMetric c2Measure c2Buckets 1) rfl
  obtain ⟨h2, -, h3, -, h5⟩ := hc.1 (Or.inl rfl)
  refine ⟨rfl, h2, h3, ?_⟩
  rw [h5 (by decide)]
  rfl

/-! ## C5: identifier generation -/

/-- Written from C5's words: identifier of the shape
`<type>_<projectId>_<objectId>.generated.<hash>[_filtered]_<aggregation>`,
projectId/objectId parsed from the object-URI path segments, `_filtered`
present iff some filter has non-empty selected elements. -/
def specGeneratedMetricIdentifier (m : Measure) (aggregation : String)
    (expressionCreator : Measure → String) (hasher : String → String) : String :=
  let parts := jsSplit m.objectUri '/'
  m.type ++ "_" ++ parts.getD 3 "undefined" ++ "_" ++ parts.getD 5 "undefined" ++
    ".generated." ++ hasher (expressionCreator m) ++
    (if m.measureFilters.any
        (fun f => !f.listAttributeFilter.default.attributeElements.isEmpty) then "_filtered"
     else "") ++
    "_" ++ aggregation

lemma filtered_flag (fs : List MeasureFilter) :
    (fs.isEmpty || fs.all (fun f => f.listAttributeFilter.default.attributeElements.isEmpty)) =
      !(fs.any (fun f => !f.listAttributeFilter.default.attributeElements.isEmpty)) := by
  cases fs with
  | nil => rfl
  | cons f rest =>
    simp [List.all_eq_not_any_not, Bool.not_or]

/-- C5: generated-metric identifier creation is pure and deterministic, with
the claimed shape: `<type>_<projectId>_<objectId>.generated.<hash>[_filtered]_
<aggregation>`, the `_filtered` segment present iff the measure has at least
one filter with non-empty selected elements; and two measures agreeing on
type, object URI, filters and produced expression (hashed under the same
title and format) yield character-for-character identical identifiers. -/
theorem c5_identifier_shape_deterministic :
    (∀ (m : Measure) (agg : String) (eC : Measure → String) (hasher : String → String),
      getGeneratedMetricIdentifier m agg eC hasher =
        specGeneratedMetricIdentifier m agg eC hasher) ∧
    (∀ (m₁ m₂ : Measure) (agg t f : String) (e₁ e₂ : Measure → String),
      m₁.type = m₂.type → m₁.objectUri = m₂.objectUri →
      m₁.measureFilters = m₂.measureFilters → e₁ m₁ = e₂ m₂ →
      getGeneratedMetricIdentifier m₁ agg e₁ (getGeneratedMetricHash t f) =
        getGeneratedMetricIdentifier m₂ agg e₂ (getGeneratedMetricHash t f)) := by
  constructor
  · intro m agg eC hasher
    have hseg : (if (m.measureFilters.isEmpty || allFiltersEmpty m) = true then "" else "_filtered")
        = (if (m.measureFilters.any
            (fun f => !f.listAttributeFilter.default.attributeElements.isEmpty)) = true
          then "_filtered" else "") := by
      rw [show allFiltersEmpty m =
        m.measureFilters.all (fun f => f.listAttributeFilter.default.attributeElements.isEmpty)
        from rfl, filtered_flag]
      cases hany : m.measureFilters.any
          (fun f => !f.listAttributeFilter.default.attributeElements.isEmpty) <;>
        simp
    rw [getGeneratedMetricIdentifier, specGeneratedMetricIdentifier, hseg]
    cases hany : m.measureFilters.any
        (fun f => !f.listAttributeFilter.default.attributeElements.isEmpty) <;>
      simp only [hany, if_true, if_false, String.append_empty, ← String.append_assoc]
  · intro m₁ m₂ agg t f e₁ e₂ htype huri hfilters hexpr
    simp only [getGeneratedMetricIdentifier, allFiltersEmpty, htype, huri, hfilters, hexpr]

def c5MeasureA : Measure :=
  { objectUri := "/gdc/md/px/obj/7", type := "fact", aggregation := some "sum",
    title := "A", format := "F1" }

def c5MeasureB : Measure :=
  { objectUri := "/gdc/md/px/obj/7", type := "fact", aggregation := some "sum",
    title := "B", format := "F2" }

/-- C5 witness: two measures differing only in fields outside the identifier's
inputs get the identical identifier, and the shape equation evaluates on a
concrete measure. -/
theorem c5_witness :
    getGeneratedMetricIdentifier c5MeasureA "sum" getGeneratedMetricExpression
        (getGeneratedMetricHash "T" "F") =
      getGeneratedMetricIdentifier c5MeasureB "sum" getGeneratedMetricExpression
        (getGeneratedMetricHash "T" "F") ∧
    getGeneratedMetricIdentifier c5MeasureA "sum" getGeneratedMetricExpression
        (getGeneratedMetricHash "T" "F") =
      specGeneratedMetricIdentifier c5MeasureA "sum" getGeneratedMetricExpression
        (getGeneratedMetricHash "T" "F") :=
  ⟨c5_identifier_shape_deterministic.2 c5MeasureA c5MeasureB "sum" "T" "F" _ _ rfl rfl rfl rfl,
   c5_identifier_shape_deterministic.1 c5MeasureA "sum" _ _⟩

/-! ## C6 and C7: title truncation -/

lemma jsSubstring0_length_le (s : String) (n : Int) : (jsSubstring0 s n).length ≤ n.toNat := by
  rw [jsSubstring0]
  show (s.data.take n.toNat).length ≤ n.toNat
  exact List.length_take_le n.toNat s.data

/-- C6: for the two suffixes the metric-title builder uses (the empty base
suffix and the PoP suffix), the output never exceeds 255 characters, and any
title within the 255-minus-suffix budget passes through unchanged with the
suffix appended and no truncation marker. -/
theorem c6_title_budget (suffix title : String)
    (hs : suffix = "" ∨ suffix = POP_SUFFIX) :
    (getMetricTitle suffix title).length ≤ MAX_TITLE_LENGTH ∧
    (title.length + suffix.length ≤ MAX_TITLE_LENGTH →
      getMetricTitle suffix title = title ++ suffix) := by
  refine ⟨?_, fun h => getMetricTitle_short suffix title h⟩
  have hsl : suffix.length ≤ 16 := by
    rcases hs with rfl | rfl <;> decide
  rw [getMetricTitle]
  by_cases hc : title ≠ "" ∧ (title.length : Int) > (MAX_TITLE_LENGTH : Int) - suffix.length
  · rw [if_pos hc]
    by_cases hp : title.data.getLast? = some ')'
    · have hb := jsSubstring0_length_le title ((MAX_TITLE_LENGTH : Int) - suffix.length - 2)
      rw [if_pos hp, String.length_append, String.length_append,
        show (("…)") : String).length = 2 from rfl]
      rw [MAX_TITLE_LENGTH] at hb ⊢
      omega
    · have hb := jsSubstring0_length_le title ((MAX_TITLE_LENGTH : Int) - suffix.length - 1)
      rw [if_neg hp, String.length_append, String.length_append,
        show (("…") : String).length = 1 from rfl]
      rw [MAX_TITLE_LENGTH] at hb ⊢
      omega
  · rw [if_neg hc, String.length_append]
    by_cases ht : title = ""
    · rw [ht, show ("" : String).length = 0 from rfl, MAX_TITLE_LENGTH]
      omega
    · push_neg at hc
      have h2 := hc ht
      rw [MAX_TITLE_LENGTH] at h2 ⊢
      omega

/-- C6 witness: a short title with the PoP suffix stays within budget and is
appended verbatim. -/
theorem c6_witness :
    ("Revenue".length + POP_SUFFIX.length ≤ MAX_TITLE_LENGTH) ∧
    (getMetricTitle POP_SUFFIX "Revenue").length ≤ MAX_TITLE_LENGTH ∧
    getMetricTitle POP_SUFFIX "Revenue" = "Revenue" ++ POP_SUFFIX :=
  ⟨by decide, (c6_title_budget POP_SUFFIX "Revenue" (Or.inr rfl)).1,
    (c6_title_budget POP_SUFFIX "Revenue" (Or.inr rfl)).2 (by decide)⟩

/-- Written from C7's words: truncate two characters shorter than otherwise
and reinsert the two-character sequence ")…" (closing parenthesis then
ellipsis) immediately before the suffix. -/
def specParenTruncatedTitle (suffix title : String) : String :=
  jsSubstring0 title ((MAX_TITLE_LENGTH : Int) - suffix.length - 2) ++ ")…" ++ suffix

/-- The 256-character title `aaa…a)b)`: it exceeds the 255 budget (empty
suffix), the character before the would-be truncation point (index 253) is a
`)`, and its final character is a `)`. -/
def c7Title : String := ⟨List.replicate 253 'a' ++ [')', 'b', ')']⟩

set_option maxRecDepth 8192 in
/-- C7 counterexample: on a title satisfying the claim's antecedent under
either reading (the truncation point lands right after a `)` and the title
also ends in `)`), the code emits `…)` — ellipsis before the parenthesis —
not the claimed `)…`. -/
theorem c7_counterexample :
    (c7Title.length : Int) > (MAX_TITLE_LENGTH : Int) - ("" : String).length ∧
    c7Title.data.getD 253 ' ' = ')' ∧
    c7Title.data.getLast? = some ')' ∧
    getMetricTitle "" c7Title ≠ specParenTruncatedTitle "" c7Title :=
  ⟨by decide, by decide, by decide, by decide⟩

/-- C7 as amended: when a title exceeds the budget and its FINAL character is
`)` (the code tests the last character, not the truncation point), the
truncator keeps two characters fewer than the plain branch and inserts the
two-character sequence `…)` — ellipsis then closing parenthesis — immediately
before the suffix. -/
theorem c7_amended_paren_truncation (suffix title : String)
    (h1 : (title.length : Int) > (MAX_TITLE_LENGTH : Int) - suffix.length)
    (h2 : title.data.getLast? = some ')') :
    getMetricTitle suffix title =
      jsSubstring0 title ((MAX_TITLE_LENGTH : Int) - suffix.length - 2) ++ "…)" ++ suffix := by
  have ht : title ≠ "" := by
    intro h
    rw [h] at h2
    simp at h2
  rw [getMetricTitle, if_pos ⟨ht, h1⟩, if_pos h2]

set_option maxRecDepth 8192 in
/-- C7 witness: the amended statement evaluated at the concrete long title. -/
theorem c7_amended_witness :
    getMetricTitle "" c7Title =
      jsSubstring0 c7Title ((MAX_TITLE_LENGTH : Int) - ("" : String).length - 2) ++ "…)" ++ "" :=
  c7_amended_paren_truncation "" c7Title (by decide) (by decide)

/-! ## C8: orderBy -/

/-- C8: for visualization type "bar" with a non-empty metric list, orderBy is
exactly one entry — the first non-empty metric element, direction "desc" —
discarding every per-item sort; otherwise it lists, in concatenation order
(categories then metrics), one column/direction entry per item carrying a sort
setting. -/
theorem c8_orderby_bar_override (metrics categories : List ColumnItem) (type : Option String) :
    ((type = some "bar" ∧ metrics ≠ []) →
      getOrderBy metrics categories type =
        [{ column := ((metrics.map (·.element)).filter (· ≠ "")).head?
           direction := some "desc" }]) ∧
    (¬(type = some "bar" ∧ metrics ≠ []) →
      getOrderBy metrics categories type =
        ((categories ++ metrics).filter hasTruthySort).map sortToOrderBy) := by
  constructor
  · rintro ⟨rfl, hm⟩
    rw [getOrderBy, if_pos (by simp [hm])]
  · intro h
    cases hcond : (type == some "bar" && !metrics.isEmpty) with
    | true =>
      exfalso
      apply h
      simpa using hcond
    | false =>
      rw [getOrderBy, if_neg (by rw [hcond]; simp)]

/-- C8 witness: the spec's bar-chart example — two metrics with individually
set ascending sorts collapse to one descending entry on the first metric. -/
theorem c8_witness :
    getOrderBy [{ element := "m1", sort := some "asc" }, { element := "m2", sort := some "asc" }]
        [] (some "bar") =
      [{ column := some "m1", direction := some "desc" }] := by
  rw [(c8_orderby_bar_override
    [{ element := "m1", sort := some "asc" }, { element := "m2", sort := some "asc" }]
    [] (some "bar")).1 ⟨rfl, by decide⟩]
  rfl

/-! ## C9: pure-metric end-to-end compilation -/

def c9Measure : Measure :=
  { objectUri := "/gdc/md/p1/obj/5", type := "metric", title := "Revenue", format := "#,##0" }

def c9MdObj : MdObj :=
  { buckets := { measures := [{ measure := c9Measure }], categories := [], filters := [] } }

/-- C9 counterexample: the claim says the compiled `where` object has no entry
in it, but the code puts the `$and` key (with an empty clause array) into
`where` whenever columns are non-empty, so the where object has one entry. -/
theorem c9_counterexample :
    (mdToExecutionConfiguration c9MdObj).map (fun c => c.whereObj) =
      some [("$and", WhereVal.andClauses [])] ∧
    ([(("$and" : String), WhereVal.andClauses [])] : List (String × WhereVal)) ≠ [] :=
  ⟨rfl, by simp⟩

/-- C9 as amended: the flag-free pure metric compiles to exactly one column
equal to its object URI, an empty definitions list, and a `where` object whose
single entry is the always-present `$and` key mapped to an empty clause array
(not an entry-free object). -/
theorem c9_amended_compilation :
    mdToExecutionConfiguration c9MdObj = some
      { columns := ["/gdc/md/p1/obj/5"]
        orderBy := []
        definitions := []
        whereObj := [("$and", WhereVal.andClauses [])]
        metricMappings := [{ element := "/gdc/md/p1/obj/5", measureIndex := 0 }] } := rfl

/-! ## C10: getDataForVis mutates the metadata's measures in place -/

/-- C10: after `getDataForVis`'s pre-compile step the caller's metadata object
holds a freshly built measures array wrapping the format-resolved measure
copies — the rest of the object unchanged — and the compiled configuration is
built from that updated object; a measure with `showPoP` or a non-empty filter
list takes its format from the server round-trip. -/
theorem c10_metadata_measures_reassigned :
    (∀ (server : String → Option String) (mdObj : MdObj),
      (getDataForVisMetadata server mdObj).buckets.measures =
        mdObj.buckets.measures.map
          (fun w => { measure := originalFormatMeasure server w.measure }) ∧
      (getDataForVisMetadata server mdObj).buckets.categories = mdObj.buckets.categories ∧
      (getDataForVisMetadata server mdObj).buckets.filters = mdObj.buckets.filters ∧
      (getDataForVisMetadata server mdObj).type = mdObj.type ∧
      getDataForVisConfiguration server mdObj =
        mdToExecutionConfiguration (getDataForVisMetadata server mdObj)) ∧
    (∀ (server : String → Option String) (measure : Measure),
      (measure.showPoP = true ∨ measure.measureFilters.length > 0) →
      (originalFormatMeasure server measure).format =
        (server measure.objectUri).getD measure.format) := by
  constructor
  · intro server mdObj
    refine ⟨?_, rfl, rfl, rfl, rfl⟩
    rw [getDataForVisMetadata, getOriginalMetricFormats, List.map_map, List.map_map]
    rfl
  · intro server measure h
    rw [originalFormatMeasure, if_pos h]

def c10Measure : Measure :=
  { objectUri := "/gdc/md/p1/obj/9", type := "metric", title := "M", format := "OLD",
    showPoP := true }

/-- C10 witness: a `showPoP` measure's copy takes the server-provided format. -/
theorem c10_witness :
    (c10Measure.showPoP = true ∨ c10Measure.measureFilters.length > 0) ∧
    (originalFormatMeasure (fun _ => some "NEW") c10Measure).format = "NEW" := by
  refine ⟨Or.inl rfl, ?_⟩
  rw [c10_metadata_measures_reassigned.2 (fun _ => some "NEW") c10Measure (Or.inl rfl)]
  rfl

end GoodData
